import Mathlib

/-!
Verification of the feedback-bot workflow engine (src/bot.py).

Shallow embedding notes:
* Database rows (the `feedback` table) are modelled as a `List Feedback`;
  SQLAlchemy queries become list operations.  Timestamps are naturals.
* Telegram callback data is a string built as `prefix ++ payload` and parsed
  back by `split`, which is exact on every datum matching the handler's
  pattern; events therefore carry the payload directly.
* Outbound messages are abstracted to tagged `Notice` values (their literal
  texts do not matter to any property proved here); delivery failure of the
  gateway is modelled by an explicit boolean/predicate, since the python code
  observes it only as "the send raised".
* Uncaught python exceptions (KeyError on a missing session key, ValueError
  from int()) are modelled as `Except.error ()`.
-/

namespace FeedbackBot

/-- Feedback status column: the strings 'new', 'replied', 'resolved'
(src/bot.py line 58). -/
inductive Status where
  | new
  | replied
  | resolved
deriving DecidableEq

/-- One row of the `feedback` table (src/bot.py lines 49-60).  The column
default for `status` is 'new'; `timestamp` defaults to the commit time. -/
structure Feedback where
  id : Nat
  user_id : Nat
  username : String
  category : String
  message : String
  rating : Int
  status : Status
  timestamp : Nat
  photo_file_id : Option String
deriving DecidableEq

/-- src/bot.py line 34. -/
def FEEDBACK_CATEGORIES : List String :=
  ["🐛 Bug Report", "💡 Feature Request", "🤔 General Query", "⭐ Other"]

/-- src/bot.py line 35. -/
def FEEDBACK_PER_PAGE : Nat := 5

/-- `context.user_data`, the per-participant transient session dict.  Each
field models one key; `none` means the key is absent. -/
structure UserData where
  feedback_category : Option String
  feedback_message : Option String
  feedback_photo_id : Option String
  feedback_rating : Option Int
  admin_reply_to_fb_id : Option Nat
deriving DecidableEq

/-- An empty session dict (also the result of `context.user_data.clear()`). -/
def UserData.empty : UserData := ⟨none, none, none, none, none⟩

/-- The admin_config.json contents once written (src/bot.py lines 402-406).
`load_admin_config` returns the empty (falsy) dict when the file is absent,
modelled as `none`. -/
structure AdminConfig where
  admin_id : String
  admin_chat_id : String
  admin_username : String
deriving DecidableEq

/-- The check performed by the `admin_only` decorator (src/bot.py lines
107-117): `not admin_config or str(user_id) != admin_config.get('admin_id')`
denies; this function returns `true` exactly when access is granted. -/
def admin_only_allows : Option AdminConfig → Nat → Bool
  | none, _ => false
  | some c, uid => toString uid == c.admin_id

/-- Python truthiness of `a or b` on an optional string: `None` and the empty
string are falsy (src/bot.py line 215). -/
def pyOr : Option String → String → String
  | none, b => b
  | some s, b => if s = "" then b else s

/-- Callback data of the category keyboard (src/bot.py lines 121-127). -/
def get_category_keyboard : List String :=
  FEEDBACK_CATEGORIES.map (fun category => "category_" ++ category)

/-- Callback data of the rating keyboard, `range(1, 6)` (src/bot.py lines
129-132). -/
def get_rating_keyboard : List String :=
  (List.range' 1 5).map (fun i => "rating_" ++ toString i)

/-- Callback data of the confirmation keyboard (src/bot.py lines 134-140). -/
def get_confirmation_keyboard : List String :=
  ["confirm_yes", "confirm_no"]

/-- Callback data of the admin action keyboard for one feedback item
(src/bot.py lines 142-152): Reply and Delete always, Mark-Resolved inserted
between them unless the item is already resolved, then a back-to-list row. -/
def get_admin_feedback_actions_keyboard (feedback_id : Nat) (status : Status) :
    List String :=
  (if status ≠ Status.resolved then
    ["admin_reply_" ++ toString feedback_id,
     "admin_resolve_" ++ toString feedback_id,
     "admin_delete_" ++ toString feedback_id]
  else
    ["admin_reply_" ++ toString feedback_id,
     "admin_delete_" ++ toString feedback_id])
  ++ ["admin_list_0"]

/-- Value of a decimal digit character. -/
def digitVal (c : Char) : Nat := c.toNat - '0'.toNat

/-- Decimal digit run parser used by `pyInt`. -/
def parseDigits : List Char → Nat → Option Nat
  | [], acc => some acc
  | c :: rest, acc =>
      if c.isDigit then parseDigits rest (acc * 10 + digitVal c) else none

/-- Model of python's `int(s)` on the strings this program feeds it: an
optional minus sign followed by decimal digits; anything else raises
(returns `none`). -/
def pyInt (s : String) : Option Int :=
  match s.data with
  | [] => none
  | '-' :: rest =>
      if rest = [] then none else (parseDigits rest 0).map (fun n => -(n : Int))
  | cs => (parseDigits cs 0).map (fun n => (n : Int))

/-- Stable insertion keeping the list sorted descending by `timestamp`. -/
def insert_by_timestamp_desc (fb : Feedback) : List Feedback → List Feedback
  | [] => [fb]
  | g :: rest =>
      if g.timestamp ≤ fb.timestamp then fb :: g :: rest
      else g :: insert_by_timestamp_desc fb rest

/-- Model of the store query `order_by(Feedback.timestamp.desc())`
(src/bot.py line 423): the rows sorted descending by creation time. -/
def order_by_timestamp_desc : List Feedback → List Feedback
  | [] => []
  | fb :: rest => insert_by_timestamp_desc fb (order_by_timestamp_desc rest)

/-- Store lookup `filter(Feedback.id == feedback_id).first()`. -/
def find_feedback (store : List Feedback) (fid : Nat) : Option Feedback :=
  store.find? (fun fb => fb.id == fid)

/-- Store update `filter(Feedback.id == fid).update({'status': 'resolved'})`
(src/bot.py lines 532-534). -/
def set_feedback_resolved (store : List Feedback) (fid : Nat) : List Feedback :=
  store.map (fun fb =>
    if fb.id == fid then { fb with status := Status.resolved } else fb)

/-- The mutation `fb.status = 'replied'; db.commit()` performed by
`admin_reply_handler` on the row with the given id (src/bot.py line 566). -/
def set_feedback_replied (store : List Feedback) (fid : Nat) : List Feedback :=
  store.map (fun fb =>
    if fb.id == fid then { fb with status := Status.replied } else fb)

/-- Store delete `filter(Feedback.id == fid).delete()` (src/bot.py line 541). -/
def delete_feedback (store : List Feedback) (fid : Nat) : List Feedback :=
  store.filter (fun fb => !(fb.id == fid))

/-- The navigation markup attached to the admin feedback list
(src/bot.py lines 425-449). -/
inductive ListMarkup where
  | noMarkup
  | backToStart
  | nav (hasPrev hasNext : Bool)
deriving DecidableEq

/-- Whether the markup carries a previous-page button. -/
def ListMarkup.hasPrevControl : ListMarkup → Bool
  | .nav p _ => p
  | _ => false

/-- Whether the markup carries a next-page button. -/
def ListMarkup.hasNextControl : ListMarkup → Bool
  | .nav _ n => n
  | _ => false

/-- One rendered admin list page: the slice of rows shown and the markup. -/
structure PageRender where
  entries : List Feedback
  markup : ListMarkup
deriving DecidableEq

/-- `display_feedback_page` (src/bot.py lines 419-449): counts the rows,
takes the descending-by-time slice `offset(page*5).limit(5)`, then either the
no-feedback view (page 0, empty), the end-of-list view with its back-to-start
button, or the list with Prev iff `page > 0` and Next iff
`(page+1)*5 < total`. -/
def display_feedback_page (store : List Feedback) (page : Nat) : PageRender :=
  let total := store.length
  let feedbacks :=
    ((order_by_timestamp_desc store).drop (page * FEEDBACK_PER_PAGE)).take
      FEEDBACK_PER_PAGE
  if feedbacks = [] ∧ page = 0 then ⟨[], ListMarkup.noMarkup⟩
  else if feedbacks = [] then ⟨[], ListMarkup.backToStart⟩
  else
    ⟨feedbacks,
     ListMarkup.nav (decide (0 < page))
       (decide ((page + 1) * FEEDBACK_PER_PAGE < total))⟩

/-- Outbound messages to the acting chat, abstracted to tags (their literal
texts play no role in the properties below).  `detail` carries the action
keyboard attached to the detail view. -/
inductive Notice where
  | accessDenied
  | adminRegistered
  | alreadyRegistered
  | listPage (r : PageRender)
  | notFound (fid : Nat)
  | imageMsg (fid : Nat)
  | detail (fid : Nat) (buttons : List String)
  | resolvedMsg (fid : Nat)
  | deletedMsg (fid : Nat)
  | replyPrompt (fid : Nat)
  | replySent (fid : Nat)
  | replyFailed (fid : Nat)
  | replyOrigMissing
deriving DecidableEq

/-- `display_single_feedback` (src/bot.py lines 478-521): not-found notice
when the id is absent, otherwise the image (if any) followed by the detail
view with its action keyboard. -/
def display_single_feedback (store : List Feedback) (fid : Nat) : List Notice :=
  match find_feedback store fid with
  | none => [Notice.notFound fid]
  | some fb =>
      (if fb.photo_file_id.isSome then [Notice.imageMsg fid] else []) ++
      [Notice.detail fid (get_admin_feedback_actions_keyboard fid fb.status)]

/-- The three actions parsed from `admin_<action>_<id>` callback data
(src/bot.py line 528). -/
inductive AdminAction where
  | resolve
  | delete
  | reply
deriving DecidableEq

/-- `admin_feedback_action_callback` (src/bot.py lines 523-551).  Note that
the source reads no user identity here: the handler body performs the action
for whoever pressed the button. -/
def admin_feedback_action (store : List Feedback) (ud : UserData)
    (a : AdminAction) (fid : Nat) : List Feedback × UserData × List Notice :=
  match a with
  | AdminAction.resolve =>
      let store' := set_feedback_resolved store fid
      (store', ud, Notice.resolvedMsg fid :: display_single_feedback store' fid)
  | AdminAction.delete =>
      (delete_feedback store fid, ud, [Notice.deletedMsg fid])
  | AdminAction.reply =>
      (store, { ud with admin_reply_to_fb_id := some fid },
       [Notice.replyPrompt fid])

/-- Inbound events of the admin moderation surface.  The numeric id carried
by view/action events is the one parsed from the command or callback datum. -/
inductive AdminEvent where
  | cmdListfb
  | cmdView (fid : Nat)
  | cbList (page : Nat)
  | cbView (fid : Nat)
  | cbAction (a : AdminAction) (fid : Nat)
deriving DecidableEq

/-- Routing of the admin moderation surface as registered in `main`
(src/bot.py lines 686-695): `/listfb` goes through the `admin_only` wrapper,
while the `/view_<id>` command handler and the `admin_list_`, `admin_view_`
and `admin_(resolve|delete)_` callback handlers are registered bare — their
handlers run for any acting user, with no identity check. -/
def handle_admin_event (cfg : Option AdminConfig) (uid : Nat)
    (store : List Feedback) (ud : UserData) :
    AdminEvent → List Feedback × UserData × List Notice
  | AdminEvent.cmdListfb =>
      if admin_only_allows cfg uid then
        (store, ud, [Notice.listPage (display_feedback_page store 0)])
      else (store, ud, [Notice.accessDenied])
  | AdminEvent.cmdView fid => (store, ud, display_single_feedback store fid)
  | AdminEvent.cbList page =>
      (store, ud, [Notice.listPage (display_feedback_page store page)])
  | AdminEvent.cbView fid => (store, ud, display_single_feedback store fid)
  | AdminEvent.cbAction a fid => admin_feedback_action store ud a fid

/-- `register_admin_command` together with its `admin_only` wrapper
(src/bot.py lines 107-117 and 392-412): the decorator denies whenever no
config exists or the sender is not the stored admin; only then does the body
run its own already-registered check and persist the new config. -/
def register_admin_command (cfg : Option AdminConfig) (uid chat_id : Nat)
    (uname : String) : Option AdminConfig × Notice :=
  if admin_only_allows cfg uid then
    match cfg with
    | some c =>
        if c.admin_id ≠ "" ∧ toString uid ≠ c.admin_id then
          (some c, Notice.alreadyRegistered)
        else
          (some ⟨toString uid, toString chat_id, uname⟩, Notice.adminRegistered)
    | none =>
        (some ⟨toString uid, toString chat_id, uname⟩, Notice.adminRegistered)
  else (cfg, Notice.accessDenied)

/-- The message forwarded to the submitter by `admin_reply_handler`
(src/bot.py line 569). -/
def user_reply_message (reply_text : String) : String :=
  "📣 <b>A reply from the admin regarding your feedback:</b>\n\n<i>" ++
    reply_text ++ "</i>"

/-- Outcome of `admin_reply_handler`: the store afterwards, the session
afterwards, the notices sent to the admin, the delivery attempts made to the
submitter, and which of them succeeded. -/
structure ReplyResult where
  store : List Feedback
  ud : UserData
  notices : List Notice
  sendAttempts : List (Nat × String)
  delivered : List (Nat × String)
deriving DecidableEq

/-- `admin_reply_handler` (src/bot.py lines 553-578): no pending target ends
the flow untouched; a vanished target yields an error notice (without
clearing the session); otherwise the row's status is set to 'replied' and
committed, then one delivery is attempted — success and failure differ only
in the admin's confirmation, and the session is cleared either way.
`deliveryOk` models whether the single gateway send raises. -/
def admin_reply_handler (store : List Feedback) (ud : UserData)
    (deliveryOk : Bool) (reply_text : String) : ReplyResult :=
  match ud.admin_reply_to_fb_id with
  | none => ⟨store, ud, [], [], []⟩
  | some fid =>
      match find_feedback store fid with
      | none => ⟨store, ud, [Notice.replyOrigMissing], [], []⟩
      | some fb =>
          let store' := set_feedback_replied store fid
          let msg := user_reply_message reply_text
          if deliveryOk then
            ⟨store', UserData.empty, [Notice.replySent fid],
             [(fb.user_id, msg)], [(fb.user_id, msg)]⟩
          else
            ⟨store', UserData.empty, [Notice.replyFailed fid],
             [(fb.user_id, msg)], []⟩

/-- Accumulated outcome of the broadcast fan-out loop. -/
structure BroadcastResult where
  sent : Nat
  failed : Nat
  delivered : List (Nat × String)
deriving DecidableEq

/-- The fan-out loop of `broadcast_handler` (src/bot.py lines 626-632): one
send attempt per user id in order; a raise increments `failed` and the loop
continues, otherwise `sent` is incremented and the user received exactly the
payload.  `fails` models which recipients' sends raise. -/
def broadcast_loop (fails : Nat → Bool) (payload : String) :
    List Nat → BroadcastResult
  | [] => ⟨0, 0, []⟩
  | u :: rest =>
      let r := broadcast_loop fails payload rest
      if fails u then ⟨r.sent, r.failed + 1, r.delivered⟩
      else ⟨r.sent + 1, r.failed, (u, payload) :: r.delivered⟩

/-- `broadcast_handler` (src/bot.py lines 616-640): resolves the distinct
submitter ids (`query(Feedback.user_id).distinct()`), runs the fan-out loop,
and reports the two counters to the admin. -/
def broadcast_handler (store : List Feedback) (fails : Nat → Bool)
    (payload : String) : BroadcastResult :=
  broadcast_loop fails payload ((store.map Feedback.user_id).dedup)

/-- Content accepted by the `GET_FEEDBACK_CONTENT` state under the
`filters.TEXT | filters.PHOTO` filter: a text message, or a photo whose
caption is `none` when absent. -/
inductive ContentInput where
  | text (s : String)
  | photo (file_id : String) (caption : Option String)
deriving DecidableEq

/-- Inbound events of the feedback conversation.  A callback datum matching
a handler pattern `^p_` is exactly `p_ ++ payload`, and the handler's
`split` recovers that payload, so events carry the payload directly. -/
inductive Event where
  | categoryButton (payload : String)
  | contentMessage (c : ContentInput)
  | ratingButton (payload : String)
  | confirmButton (payload : String)
  | cancelCommand
deriving DecidableEq

/-- The conversation states of the feedback dialogue (src/bot.py lines
67-74), plus the terminal `ConversationHandler.END`. -/
inductive ConvState where
  | selectCategory
  | getFeedbackContent
  | getRating
  | confirmSubmission
  | ended
deriving DecidableEq

/-- One participant's view of the system while submitting feedback: session
dict, conversation position, the store, the next store-assigned id, and the
current time used for the row's timestamp. -/
structure FlowState where
  ud : UserData
  conv : ConvState
  store : List Feedback
  nextId : Nat
  now : Nat
deriving DecidableEq

/-- `select_category_callback` (src/bot.py lines 190-204): stores the datum's
payload — whatever follows `category_` — without checking it against
`FEEDBACK_CATEGORIES`. -/
def select_category_callback (ud : UserData) (payload : String) : UserData :=
  { ud with feedback_category := some payload }

/-- `get_feedback_content_handler` (src/bot.py lines 206-229): a photo stores
its file id and the caption (placeholder when the caption is falsy); a text
message stores the text. -/
def get_feedback_content_handler (ud : UserData) :
    ContentInput → UserData
  | ContentInput.photo fid cap =>
      { ud with feedback_photo_id := some fid,
                feedback_message :=
                  some (pyOr cap "(No description provided with photo)") }
  | ContentInput.text s => { ud with feedback_message := some s }

/-- `get_rating_callback` (src/bot.py lines 231-273): parses the payload with
`int()` — any integer is accepted, in range or not — and then renders the
summary, which reads `user_data['feedback_category']` unguarded; a parse
failure or a missing category raises (`Except.error`). -/
def get_rating_step (fs : FlowState) (payload : String) :
    Except Unit FlowState :=
  match pyInt payload with
  | none => Except.error ()
  | some r =>
      match fs.ud.feedback_category with
      | none => Except.error ()
      | some _ =>
          Except.ok { fs with ud := { fs.ud with feedback_rating := some r },
                              conv := ConvState.confirmSubmission }

/-- The `confirm_yes` branch of `confirm_submission_callback` (src/bot.py
lines 286-322): builds the row with unguarded reads of
`user_data['feedback_category']` and `user_data['feedback_rating']` (a
missing key raises KeyError, which the `except SQLAlchemyError` clause does
not catch — nothing is persisted), commits it (status takes the column
default 'new'), and clears the session. -/
def confirm_submission_yes (uid : Nat) (uname : String) (fs : FlowState) :
    Except Unit FlowState :=
  match fs.ud.feedback_category with
  | none => Except.error ()
  | some cat =>
      match fs.ud.feedback_rating with
      | none => Except.error ()
      | some r =>
          Except.ok { fs with
            store := fs.store ++
              [{ id := fs.nextId, user_id := uid, username := uname,
                 category := cat,
                 message := fs.ud.feedback_message.getD
                   "No description provided.",
                 rating := r, status := Status.new, timestamp := fs.now,
                 photo_file_id := fs.ud.feedback_photo_id }],
            nextId := fs.nextId + 1, ud := UserData.empty,
            conv := ConvState.ended }

/-- One step of the feedback `ConversationHandler` (src/bot.py lines
652-662): the `/cancel` fallback is valid in every active state and clears
the session; otherwise each state routes only its own pattern and any other
event leaves the state held (a no-op). -/
def feedback_step (uid : Nat) (uname : String) (fs : FlowState) :
    Event → Except Unit FlowState
  | Event.cancelCommand =>
      if fs.conv = ConvState.ended then Except.ok fs
      else Except.ok { fs with ud := UserData.empty, conv := ConvState.ended }
  | ev =>
      match fs.conv, ev with
      | ConvState.selectCategory, Event.categoryButton p =>
          Except.ok { fs with ud := select_category_callback fs.ud p,
                              conv := ConvState.getFeedbackContent }
      | ConvState.getFeedbackContent, Event.contentMessage c =>
          Except.ok { fs with ud := get_feedback_content_handler fs.ud c,
                              conv := ConvState.getRating }
      | ConvState.getRating, Event.ratingButton p => get_rating_step fs p
      | ConvState.confirmSubmission, Event.confirmButton p =>
          if p = "no" then
            Except.ok { fs with ud := UserData.empty,
                                conv := ConvState.ended }
          else confirm_submission_yes uid uname fs
      | _, _ => Except.ok fs

/-- Runs a sequence of inbound events through `feedback_step`, stopping at
the first uncaught exception. -/
def runEvents (uid : Nat) (uname : String) (fs : FlowState) :
    List Event → Except Unit FlowState
  | [] => Except.ok fs
  | ev :: rest =>
      match feedback_step uid uname fs ev with
      | Except.ok fs' => runEvents uid uname fs' rest
      | Except.error e => Except.error e

/-- A sample row used by concrete witnesses and counterexamples. -/
def sampleFeedback : Feedback :=
  { id := 1, user_id := 10, username := "alice", category := "🐛 Bug Report",
    message := "crashes on save", rating := 4, status := Status.new,
    timestamp := 100, photo_file_id := none }

theorem length_insert_by_timestamp_desc (fb : Feedback) (l : List Feedback) :
    (insert_by_timestamp_desc fb l).length = l.length + 1 := by
  induction l with
  | nil => rfl
  | cons g rest ih =>
      by_cases h : g.timestamp ≤ fb.timestamp <;>
        simp [insert_by_timestamp_desc, h, ih]

theorem length_order_by_timestamp_desc (l : List Feedback) :
    (order_by_timestamp_desc l).length = l.length := by
  induction l with
  | nil => rfl
  | cons fb rest ih =>
      simp [order_by_timestamp_desc, length_insert_by_timestamp_desc, ih]

theorem length_filter_not_add {α : Type} (p : α → Bool) (l : List α) :
    (l.filter (fun a => !p a)).length + (l.filter p).length = l.length := by
  induction l with
  | nil => rfl
  | cons a t ih =>
      by_cases h : p a <;> simp [List.filter_cons, h] <;> omega

/-- Items of the updated store that carry the target id have status
'replied'. -/
theorem status_eq_of_mem_set_feedback_replied (store : List Feedback)
    (fid : Nat) :
    ∀ g ∈ set_feedback_replied store fid, g.id = fid →
      g.status = Status.replied := by
  intro g hg hid
  simp only [set_feedback_replied, List.mem_map] at hg
  obtain ⟨a, ha, hfa⟩ := hg
  by_cases h : (a.id == fid) = true
  · rw [if_pos h] at hfa
    exact hfa ▸ rfl
  · rw [if_neg h] at hfa
    rw [← hfa] at hid
    exact absurd (beq_iff_eq.mpr hid) h

/-- Claim C1: the spec demands that every admin moderation entry point
(listing, pagination, item view, resolve, delete, reply) verify the acting
user's identity and, on mismatch, produce an access-denied notice with no
state change.  The code gates only the command handlers: the `/view_<id>`
command and the pagination/view/resolve/delete/reply callbacks are
registered without the `admin_only` wrapper (src/bot.py lines 690-695), so
user 999 — not the registered admin "1" — resolves item 1, mutating the
store, and views item 1, with no access-denied notice in either case. -/
theorem unguarded_moderation_entry_points_mutate_for_non_admin :
    admin_only_allows (some ⟨"1", "1", "boss"⟩) 999 = false ∧
    handle_admin_event (some ⟨"1", "1", "boss"⟩) 999 [sampleFeedback]
        UserData.empty (AdminEvent.cbAction AdminAction.resolve 1)
      = ([{ sampleFeedback with status := Status.resolved }], UserData.empty,
         [Notice.resolvedMsg 1,
          Notice.detail 1 ["admin_reply_1", "admin_delete_1", "admin_list_0"]]) ∧
    ({ sampleFeedback with status := Status.resolved } : Feedback)
      ≠ sampleFeedback ∧
    handle_admin_event (some ⟨"1", "1", "boss"⟩) 999 [sampleFeedback]
        UserData.empty (AdminEvent.cmdView 1)
      = ([sampleFeedback], UserData.empty,
         [Notice.detail 1
            ["admin_reply_1", "admin_resolve_1", "admin_delete_1",
             "admin_list_0"]]) ∧
    Notice.accessDenied ∉
      [Notice.resolvedMsg 1,
       Notice.detail 1 ["admin_reply_1", "admin_delete_1", "admin_list_0"]] := by
  decide

/-- Claim C2: the spec demands first-claimant-wins admin registration, but
`register_admin_command` is itself wrapped in `admin_only` (src/bot.py line
392), which denies whenever no admin config exists — so with no admin
registered, user 42's registration attempt is denied and nothing is stored
(its body's first-registration branch is unreachable dead code); and a
different claimant against an existing admin is likewise denied with the
stored identity unchanged. -/
theorem register_admin_denies_first_claimant :
    register_admin_command none 42 42 "alice" = (none, Notice.accessDenied) ∧
    register_admin_command (some ⟨"1", "1", "boss"⟩) 42 42 "alice"
      = (some ⟨"1", "1", "boss"⟩, Notice.accessDenied) := by
  decide

/-- Claim C3 (counterexample): the claim that no operation ever changes a
resolved item's status back is false — the action keyboard still offers the
Reply button on a resolved item, and `admin_reply_handler` unconditionally
sets the target's status to 'replied', moving the resolved sample item back
to 'replied'. -/
theorem reply_sets_resolved_item_back_to_replied :
    (admin_reply_handler [{ sampleFeedback with status := Status.resolved }]
        ⟨none, none, none, none, some 1⟩ true "thanks").store
      = [{ sampleFeedback with status := Status.replied }] ∧
    Status.replied ≠ Status.resolved ∧
    "admin_reply_1" ∈ get_admin_feedback_actions_keyboard 1 Status.resolved := by
  decide

/-- Claim C3 (amended): the status-updating operations are one-directional
only towards their own target value — resolve leaves every item either
'resolved' or untouched, reply leaves every item either 'replied' or
untouched (so a resolved item CAN return to 'replied' via reply), and no
operation ever sets an item's status back to 'new'. -/
theorem status_updates_never_revert_to_new (store : List Feedback) (fid : Nat)
    (fb' : Feedback) :
    (fb' ∈ set_feedback_resolved store fid →
      fb'.status = Status.resolved ∨ fb' ∈ store) ∧
    (fb' ∈ set_feedback_replied store fid →
      fb'.status = Status.replied ∨ fb' ∈ store) ∧
    ((fb' ∈ set_feedback_resolved store fid ∨
        fb' ∈ set_feedback_replied store fid) →
      fb'.status = Status.new → fb' ∈ store) := by
  have hres : fb' ∈ set_feedback_resolved store fid →
      fb'.status = Status.resolved ∨ fb' ∈ store := by
    intro h
    simp only [set_feedback_resolved, List.mem_map] at h
    obtain ⟨a, ha, hfa⟩ := h
    by_cases hid : (a.id == fid) = true
    · rw [if_pos hid] at hfa
      exact Or.inl (hfa ▸ rfl)
    · rw [if_neg hid] at hfa
      exact Or.inr (hfa ▸ ha)
  have hrep : fb' ∈ set_feedback_replied store fid →
      fb'.status = Status.replied ∨ fb' ∈ store := by
    intro h
    simp only [set_feedback_replied, List.mem_map] at h
    obtain ⟨a, ha, hfa⟩ := h
    by_cases hid : (a.id == fid) = true
    · rw [if_pos hid] at hfa
      exact Or.inl (hfa ▸ rfl)
    · rw [if_neg hid] at hfa
      exact Or.inr (hfa ▸ ha)
  refine ⟨hres, hrep, ?_⟩
  rintro (h | h) hnew
  · rcases hres h with hst | hmem
    · rw [hnew] at hst
      simp at hst
    · exact hmem
  · rcases hrep h with hst | hmem
    · rw [hnew] at hst
      simp at hst
    · exact hmem

/-- Witness for the amended C3 theorem at a concrete store. -/
theorem status_updates_never_revert_to_new_witness :
    ({ sampleFeedback with status := Status.resolved } : Feedback).status
        = Status.resolved ∨
      ({ sampleFeedback with status := Status.resolved } : Feedback)
        ∈ [sampleFeedback] :=
  (status_updates_never_revert_to_new [sampleFeedback] 1
    { sampleFeedback with status := Status.resolved }).1 (by decide)

/-- The fan-out loop visits every recipient in order: the result is exactly
the per-recipient partition of the id list by the failure predicate. -/
theorem broadcast_loop_spec (fails : Nat → Bool) (payload : String)
    (users : List Nat) :
    broadcast_loop fails payload users =
      ⟨(users.filter (fun u => !fails u)).length,
       (users.filter fails).length,
       (users.filter (fun u => !fails u)).map (fun u => (u, payload))⟩ := by
  induction users with
  | nil => rfl
  | cons u t ih =>
      by_cases h : fails u <;> simp [broadcast_loop, ih, List.filter_cons, h]

/-- Claim C5: broadcasting over the deduplicated submitter ids (a Nodup
list of size N) with K failing deliveries attempts every recipient — the
delivered list is exactly the non-failing recipients, each paired with the
exact payload — and the final report counts sent = N - K and failed = K
(so sent + failed = N: no failure aborts or skips the rest). -/
theorem broadcast_reports_sent_and_failed_counts (store : List Feedback)
    (fails : Nat → Bool) (payload : String) :
    ((store.map Feedback.user_id).dedup).Nodup ∧
    (broadcast_handler store fails payload).sent
      = ((store.map Feedback.user_id).dedup).length
        - (((store.map Feedback.user_id).dedup).filter fails).length ∧
    (broadcast_handler store fails payload).failed
      = (((store.map Feedback.user_id).dedup).filter fails).length ∧
    (broadcast_handler store fails payload).sent
        + (broadcast_handler store fails payload).failed
      = ((store.map Feedback.user_id).dedup).length ∧
    (broadcast_handler store fails payload).delivered
      = (((store.map Feedback.user_id).dedup).filter (fun u => !fails u)).map
          (fun u => (u, payload)) := by
  have hspec := broadcast_loop_spec fails payload
    ((store.map Feedback.user_id).dedup)
  have hlen := length_filter_not_add fails ((store.map Feedback.user_id).dedup)
  refine ⟨List.nodup_dedup _, ?_, ?_, ?_, ?_⟩ <;>
    simp [broadcast_handler, hspec] <;> omega

/-- A full happy-path run of the feedback dialogue, computed: category
button, content message, rating button (payload printed from r), confirm.
The persisted row carries the collected draft values and the column-default
status 'new'. -/
theorem run_feedback_dialogue_eq (uid : Nat) (uname : String)
    (c : ContentInput) (store : List Feedback) (nextId now : Nat)
    (cat : String) (r : Int) (hr1 : 1 ≤ r) (hr5 : r ≤ 5) :
    runEvents uid uname
        ⟨UserData.empty, ConvState.selectCategory, store, nextId, now⟩
        [Event.categoryButton cat, Event.contentMessage c,
         Event.ratingButton (toString r), Event.confirmButton "yes"]
      = Except.ok ⟨UserData.empty, ConvState.ended,
          store ++
            [{ id := nextId, user_id := uid, username := uname,
               category := cat,
               message := (match c with
                 | ContentInput.text s => s
                 | ContentInput.photo _ cap =>
                     pyOr cap "(No description provided with photo)"),
               rating := r, status := Status.new, timestamp := now,
               photo_file_id := (match c with
                 | ContentInput.text _ => none
                 | ContentInput.photo pid _ => some pid) }],
          nextId + 1, now⟩ := by
  interval_cases r <;> cases c <;> rfl

/-- Claim C4: every valid run of the feedback dialogue — category selected,
content given as text or image, rating chosen, confirm pressed — persists
exactly one FeedbackItem whose category, message, rating and image reference
equal the collected draft values and whose status is 'new', the stored
message being the fixed placeholder when an image comes with an empty (or
absent) caption. -/
theorem completed_dialogue_persists_exactly_one_item (uid : Nat)
    (uname : String) (c : ContentInput) (store : List Feedback)
    (nextId now : Nat) (cat : String) (r : Int)
    (hcat : cat ∈ FEEDBACK_CATEGORIES) (hr1 : 1 ≤ r) (hr5 : r ≤ 5) :
    ∃ item : Feedback,
      runEvents uid uname
          ⟨UserData.empty, ConvState.selectCategory, store, nextId, now⟩
          [Event.categoryButton cat, Event.contentMessage c,
           Event.ratingButton (toString r), Event.confirmButton "yes"]
        = Except.ok ⟨UserData.empty, ConvState.ended, store ++ [item],
            nextId + 1, now⟩ ∧
      (store ++ [item]).length = store.length + 1 ∧
      item.category = cat ∧ item.rating = r ∧ item.status = Status.new ∧
      (∀ s, c = ContentInput.text s →
        item.message = s ∧ item.photo_file_id = none) ∧
      (∀ pid cap, c = ContentInput.photo pid cap →
        item.photo_file_id = some pid ∧
        item.message = pyOr cap "(No description provided with photo)" ∧
        ((cap = none ∨ cap = some "") →
          item.message = "(No description provided with photo)")) := by
  refine ⟨_, run_feedback_dialogue_eq uid uname c store nextId now cat r hr1 hr5,
    by simp, rfl, rfl, rfl, ?_, ?_⟩
  · rintro s rfl
    exact ⟨rfl, rfl⟩
  · rintro pid cap rfl
    refine ⟨rfl, rfl, ?_⟩
    rintro (rfl | rfl) <;> rfl

/-- Witness for claim C4 at a concrete input: image content with an empty
caption, category "⭐ Other", rating 4. -/
theorem completed_dialogue_persists_exactly_one_item_witness :
    ("⭐ Other" ∈ FEEDBACK_CATEGORIES ∧ (1 : Int) ≤ 4 ∧ (4 : Int) ≤ 5) ∧
    (∃ item : Feedback,
      runEvents 10 "alice"
          ⟨UserData.empty, ConvState.selectCategory, [], 1, 0⟩
          [Event.categoryButton "⭐ Other",
           Event.contentMessage (ContentInput.photo "f42" (some "")),
           Event.ratingButton (toString (4 : Int)), Event.confirmButton "yes"]
        = Except.ok ⟨UserData.empty, ConvState.ended,
            ([] : List Feedback) ++ [item], 1 + 1, 0⟩ ∧
      (([] : List Feedback) ++ [item]).length
          = ([] : List Feedback).length + 1 ∧
      item.category = "⭐ Other" ∧ item.rating = 4 ∧
      item.status = Status.new ∧
      (∀ s, ContentInput.photo "f42" (some "") = ContentInput.text s →
        item.message = s ∧ item.photo_file_id = none) ∧
      (∀ pid cap,
        ContentInput.photo "f42" (some "") = ContentInput.photo pid cap →
        item.photo_file_id = some pid ∧
        item.message = pyOr cap "(No description provided with photo)" ∧
        ((cap = none ∨ cap = some "") →
          item.message = "(No description provided with photo)"))) :=
  ⟨⟨by decide, by decide, by decide⟩,
   completed_dialogue_persists_exactly_one_item 10 "alice"
     (ContentInput.photo "f42" (some "")) [] 1 0 "⭐ Other" 4
     (by decide) (by decide) (by decide)⟩

/-- Claim C6 (counterexample): the claim that the previous-page control is
absent iff page = 0 fails on the code — with 5 stored items, page 1 renders
the end-of-list view whose only control is back-to-start, so the previous
control is absent although the page number is not 0. -/
theorem prev_control_absent_on_overrun_page :
    (display_feedback_page (List.replicate 5 sampleFeedback) 1).markup
      = ListMarkup.backToStart ∧
    (display_feedback_page
        (List.replicate 5 sampleFeedback) 1).markup.hasPrevControl = false ∧
    (1 : Nat) ≠ 0 ∧
    (List.replicate 5 sampleFeedback).length = 5 := by
  decide

/-- Claim C6 (amended): restricted to pages that actually display entries
(page * 5 < totalCount), the previous control is absent iff page = 0 and the
next control is absent iff (page+1) * 5 ≥ totalCount; a page past the end
instead renders the end-of-list view with neither control. -/
theorem nav_controls_on_entry_pages (store : List Feedback) (page : Nat)
    (h : page * FEEDBACK_PER_PAGE < store.length) :
    ((display_feedback_page store page).markup.hasPrevControl = false
        ↔ page = 0) ∧
    ((display_feedback_page store page).markup.hasNextControl = false
        ↔ store.length ≤ (page + 1) * FEEDBACK_PER_PAGE) := by
  have hlen : (order_by_timestamp_desc store).length = store.length :=
    length_order_by_timestamp_desc store
  have hne : (((order_by_timestamp_desc store).drop
      (page * FEEDBACK_PER_PAGE)).take FEEDBACK_PER_PAGE) ≠ [] := by
    have hpos : 0 < (((order_by_timestamp_desc store).drop
        (page * FEEDBACK_PER_PAGE)).take FEEDBACK_PER_PAGE).length := by
      simp only [List.length_take, List.length_drop, hlen]
      simp only [FEEDBACK_PER_PAGE] at h ⊢
      omega
    exact List.length_pos.mp hpos
  simp only [display_feedback_page, hne, false_and, if_false,
    ListMarkup.hasPrevControl, ListMarkup.hasNextControl, if_neg hne]
  simp only [decide_eq_false_iff_not, FEEDBACK_PER_PAGE] at h ⊢
  omega

/-- Witness for the amended C6 theorem: 6 stored items, page 1 — the
previous control is present and the next control is absent. -/
theorem nav_controls_on_entry_pages_witness :
    (1 * FEEDBACK_PER_PAGE < (List.replicate 6 sampleFeedback).length) ∧
    (((display_feedback_page (List.replicate 6 sampleFeedback) 1).markup.hasPrevControl
        = false ↔ (1 : Nat) = 0) ∧
     ((display_feedback_page (List.replicate 6 sampleFeedback) 1).markup.hasNextControl
        = false ↔
        (List.replicate 6 sampleFeedback).length ≤ (1 + 1) * FEEDBACK_PER_PAGE)) :=
  ⟨by decide,
   nav_controls_on_entry_pages (List.replicate 6 sampleFeedback) 1 (by decide)⟩

/-- Claim C7 (counterexample): the claim that the SelectCategory and
GetRating steps accept only inputs from the fixed sets is false — the
handlers store whatever follows the pattern prefix: the datum rating_6 is
accepted and a rating of 6 (outside 1..5) is persisted, and the datum
category_junk is accepted although "junk" is not a category. -/
theorem out_of_set_rating_accepted_and_persisted :
    runEvents 10 "alice" ⟨UserData.empty, ConvState.selectCategory, [], 1, 0⟩
        [Event.categoryButton "🐛 Bug Report",
         Event.contentMessage (ContentInput.text "hi"),
         Event.ratingButton "6", Event.confirmButton "yes"]
      = Except.ok ⟨UserData.empty, ConvState.ended,
          [{ id := 1, user_id := 10, username := "alice",
             category := "🐛 Bug Report", message := "hi", rating := 6,
             status := Status.new, timestamp := 0,
             photo_file_id := none }], 2, 0⟩ ∧
    ¬(1 ≤ (6 : Int) ∧ (6 : Int) ≤ 5) ∧
    feedback_step 10 "alice"
        ⟨UserData.empty, ConvState.selectCategory, [], 1, 0⟩
        (Event.categoryButton "junk")
      = Except.ok ⟨⟨some "junk", none, none, none, none⟩,
          ConvState.getFeedbackContent, [], 1, 0⟩ ∧
    "junk" ∉ FEEDBACK_CATEGORIES :=
  ⟨rfl, by decide, rfl, by decide⟩

/-- Claim C7 (amended): the handlers themselves accept any pattern-matching
payload, but the offered keyboards carry exactly the four category data and
the five rating data, and a dialogue driven by payloads from the offered
keyboards persists an item whose category is in the fixed 4-value set and
whose rating is an integer between 1 and 5. -/
theorem keyboard_offered_inputs_stay_in_fixed_sets (uid : Nat)
    (uname : String) (c : ContentInput) (store : List Feedback)
    (nextId now : Nat) (cat : String) (r : Int)
    (hcat : cat ∈ FEEDBACK_CATEGORIES) (hr1 : 1 ≤ r) (hr5 : r ≤ 5) :
    get_category_keyboard
      = ["category_🐛 Bug Report", "category_💡 Feature Request",
         "category_🤔 General Query", "category_⭐ Other"] ∧
    get_rating_keyboard
      = ["rating_1", "rating_2", "rating_3", "rating_4", "rating_5"] ∧
    ("category_" ++ cat) ∈ get_category_keyboard ∧
    ("rating_" ++ toString r) ∈ get_rating_keyboard ∧
    ∃ item : Feedback,
      runEvents uid uname
          ⟨UserData.empty, ConvState.selectCategory, store, nextId, now⟩
          [Event.categoryButton cat, Event.contentMessage c,
           Event.ratingButton (toString r), Event.confirmButton "yes"]
        = Except.ok ⟨UserData.empty, ConvState.ended, store ++ [item],
            nextId + 1, now⟩ ∧
      item.category ∈ FEEDBACK_CATEGORIES ∧ 1 ≤ item.rating ∧
      item.rating ≤ 5 := by
  refine ⟨by decide, by decide, List.mem_map_of_mem _ hcat, ?_,
    _, run_feedback_dialogue_eq uid uname c store nextId now cat r hr1 hr5,
    hcat, hr1, hr5⟩
  interval_cases r <;> decide

/-- Witness for the amended C7 theorem at a concrete keyboard-offered
input. -/
theorem keyboard_offered_inputs_stay_in_fixed_sets_witness :
    ("🤔 General Query" ∈ FEEDBACK_CATEGORIES ∧ (1 : Int) ≤ 2 ∧
      (2 : Int) ≤ 5) ∧
    (("category_" ++ "🤔 General Query") ∈ get_category_keyboard ∧
     ("rating_" ++ toString (2 : Int)) ∈ get_rating_keyboard) :=
  ⟨⟨by decide, by decide, by decide⟩,
   ⟨(keyboard_offered_inputs_stay_in_fixed_sets 10 "alice"
       (ContentInput.text "x") [] 1 0 "🤔 General Query" 2
       (by decide) (by decide) (by decide)).2.2.1,
    (keyboard_offered_inputs_stay_in_fixed_sets 10 "alice"
       (ContentInput.text "x") [] 1 0 "🤔 General Query" 2
       (by decide) (by decide) (by decide)).2.2.2.1⟩⟩

/-- Claim C8: in the AwaitingReply state, when delivery of the admin's reply
fails, the target item's status is nevertheless set to 'replied' (the commit
precedes the send), the admin is informed of the delivery failure, exactly
one delivery attempt is made (no retry), nothing is delivered, and the
session is cleared. -/
theorem reply_delivery_failure_still_marks_replied (store : List Feedback)
    (ud : UserData) (fid : Nat) (fb : Feedback) (reply_text : String)
    (hud : ud.admin_reply_to_fb_id = some fid)
    (hfb : find_feedback store fid = some fb) :
    (admin_reply_handler store ud false reply_text).store
      = set_feedback_replied store fid ∧
    (∀ g ∈ (admin_reply_handler store ud false reply_text).store,
      g.id = fid → g.status = Status.replied) ∧
    (admin_reply_handler store ud false reply_text).notices
      = [Notice.replyFailed fid] ∧
    (admin_reply_handler store ud false reply_text).sendAttempts
      = [(fb.user_id, user_reply_message reply_text)] ∧
    (admin_reply_handler store ud false reply_text).delivered = [] ∧
    (admin_reply_handler store ud false reply_text).ud = UserData.empty := by
  have hh : admin_reply_handler store ud false reply_text =
      ⟨set_feedback_replied store fid, UserData.empty,
       [Notice.replyFailed fid],
       [(fb.user_id, user_reply_message reply_text)], []⟩ := by
    simp [admin_reply_handler, hud, hfb]
  rw [hh]
  exact ⟨rfl,
    fun g hg hid => status_eq_of_mem_set_feedback_replied store fid g hg hid,
    rfl, rfl, rfl, rfl⟩

/-- Witness for claim C8 at a concrete store and session. -/
theorem reply_delivery_failure_still_marks_replied_witness :
    ((⟨none, none, none, none, some 1⟩ : UserData).admin_reply_to_fb_id
        = some 1 ∧
      find_feedback [sampleFeedback] 1 = some sampleFeedback) ∧
    (admin_reply_handler [sampleFeedback] ⟨none, none, none, none, some 1⟩
        false "we fixed it").store
      = set_feedback_replied [sampleFeedback] 1 ∧
    (∀ g ∈ (admin_reply_handler [sampleFeedback]
        ⟨none, none, none, none, some 1⟩ false "we fixed it").store,
      g.id = 1 → g.status = Status.replied) ∧
    (admin_reply_handler [sampleFeedback] ⟨none, none, none, none, some 1⟩
        false "we fixed it").notices = [Notice.replyFailed 1] ∧
    (admin_reply_handler [sampleFeedback] ⟨none, none, none, none, some 1⟩
        false "we fixed it").sendAttempts
      = [(sampleFeedback.user_id, user_reply_message "we fixed it")] ∧
    (admin_reply_handler [sampleFeedback] ⟨none, none, none, none, some 1⟩
        false "we fixed it").delivered = [] ∧
    (admin_reply_handler [sampleFeedback] ⟨none, none, none, none, some 1⟩
        false "we fixed it").ud = UserData.empty :=
  ⟨⟨rfl, by decide⟩,
   reply_delivery_failure_still_marks_replied [sampleFeedback]
     ⟨none, none, none, none, some 1⟩ 1 sampleFeedback "we fixed it"
     rfl (by decide)⟩

/-- Claim C9: the /cancel fallback in any active dialogue state, and
answering the confirmation step with confirm_no, end the flow with the
session cleared and the store untouched; more generally no event other than
a confirm_yes-style confirmation ever changes the store. -/
theorem cancel_and_confirm_no_leave_store_unchanged (uid : Nat)
    (uname : String) (fs : FlowState) :
    (fs.conv ≠ ConvState.ended →
      feedback_step uid uname fs Event.cancelCommand
        = Except.ok { fs with ud := UserData.empty,
                              conv := ConvState.ended }) ∧
    (fs.conv = ConvState.confirmSubmission →
      feedback_step uid uname fs (Event.confirmButton "no")
        = Except.ok { fs with ud := UserData.empty,
                              conv := ConvState.ended }) ∧
    (∀ ev fs', feedback_step uid uname fs ev = Except.ok fs' →
      fs'.store ≠ fs.store →
      ∃ p, ev = Event.confirmButton p ∧ p ≠ "no") := by
  refine ⟨?_, ?_, ?_⟩
  · intro h
    simp [feedback_step, h]
  · intro h
    simp [feedback_step, h]
  · intro ev fs' hstep hne
    cases ev with
    | cancelCommand =>
        by_cases h : fs.conv = ConvState.ended <;>
          simp [feedback_step, h] at hstep <;>
          exact absurd (by rw [← hstep]) hne
    | categoryButton p =>
        rcases h : fs.conv <;> simp [feedback_step, h] at hstep <;>
          exact absurd (by rw [← hstep]) hne
    | contentMessage c =>
        rcases h : fs.conv <;> simp [feedback_step, h] at hstep <;>
          exact absurd (by rw [← hstep]) hne
    | ratingButton p =>
        rcases h : fs.conv <;> simp [feedback_step, h] at hstep
        case getRating =>
          rcases hp : pyInt p with _ | r <;>
            simp [get_rating_step, hp] at hstep
          rcases hcat : fs.ud.feedback_category with _ | cat <;>
            simp [hcat] at hstep
          exact absurd (by rw [← hstep]) hne
        all_goals exact absurd (by rw [← hstep]) hne
    | confirmButton p =>
        rcases h : fs.conv <;> simp [feedback_step, h] at hstep
        case confirmSubmission =>
          by_cases hp : p = "no"
          · rw [if_pos hp] at hstep
            simp at hstep
            exact absurd (by rw [← hstep]) hne
          · exact ⟨p, rfl, hp⟩
        all_goals exact absurd (by rw [← hstep]) hne

/-- Witness for claim C9: cancelling a mid-flow session clears it and keeps
the store. -/
theorem cancel_and_confirm_no_leave_store_unchanged_witness :
    ((⟨⟨some "⭐ Other", some "hi", none, none, none⟩,
        ConvState.getRating, [sampleFeedback], 2, 7⟩ : FlowState).conv
      ≠ ConvState.ended) ∧
    feedback_step 10 "alice"
        ⟨⟨some "⭐ Other", some "hi", none, none, none⟩,
         ConvState.getRating, [sampleFeedback], 2, 7⟩ Event.cancelCommand
      = Except.ok ⟨UserData.empty, ConvState.ended, [sampleFeedback], 2, 7⟩ :=
  ⟨by decide,
   (cancel_and_confirm_no_leave_store_unchanged 10 "alice"
     ⟨⟨some "⭐ Other", some "hi", none, none, none⟩,
      ConvState.getRating, [sampleFeedback], 2, 7⟩).1 (by decide)⟩

/-- Claim C10: the confirm_yes branch reads the session's category and
rating by unguarded key access — it succeeds, persisting the well-formed
item, exactly when the session holds both keys; with either key missing it
raises (KeyError) instead of persisting anything. -/
theorem confirm_yes_requires_category_and_rating (uid : Nat) (uname : String)
    (fs : FlowState) :
    ((fs.ud.feedback_category = none ∨ fs.ud.feedback_rating = none) →
      confirm_submission_yes uid uname fs = Except.error ()) ∧
    (∀ cat r, fs.ud.feedback_category = some cat →
      fs.ud.feedback_rating = some r →
      confirm_submission_yes uid uname fs
        = Except.ok { fs with
            store := fs.store ++
              [{ id := fs.nextId, user_id := uid, username := uname,
                 category := cat,
                 message := fs.ud.feedback_message.getD
                   "No description provided.",
                 rating := r, status := Status.new, timestamp := fs.now,
                 photo_file_id := fs.ud.feedback_photo_id }],
            nextId := fs.nextId + 1, ud := UserData.empty,
            conv := ConvState.ended }) := by
  constructor
  · rintro (h | h)
    · simp [confirm_submission_yes, h]
    · rcases hc : fs.ud.feedback_category with _ | cat
      · simp [confirm_submission_yes, hc]
      · simp [confirm_submission_yes, hc, h]
  · intro cat r hc hr
    simp [confirm_submission_yes, hc, hr]

/-- Witness for claim C10: a session missing the rating key makes the
confirm_yes branch raise. -/
theorem confirm_yes_requires_category_and_rating_witness :
    ((⟨⟨some "⭐ Other", some "hi", none, none, none⟩,
        ConvState.confirmSubmission, [], 1, 0⟩ : FlowState).ud.feedback_category
        = none ∨
      (⟨⟨some "⭐ Other", some "hi", none, none, none⟩,
        ConvState.confirmSubmission, [], 1, 0⟩ : FlowState).ud.feedback_rating
        = none) ∧
    confirm_submission_yes 10 "alice"
        ⟨⟨some "⭐ Other", some "hi", none, none, none⟩,
         ConvState.confirmSubmission, [], 1, 0⟩
      = Except.error () :=
  ⟨Or.inr rfl,
   (confirm_yes_requires_category_and_rating 10 "alice"
     ⟨⟨some "⭐ Other", some "hi", none, none, none⟩,
      ConvState.confirmSubmission, [], 1, 0⟩).1 (Or.inr rfl)⟩

end FeedbackBot
